import Mathlib

/-!
Shallow embedding of `software/reachy/parts/motor.py`: the `DynamixelMotor`
frame transform and `goto` dispatch, and the `OrbitaActuator` (spherical
actuator) construction, compliance/speed fan-out, `point_at`, `orient`,
`setup`-independent state, and the `homing` calibration procedure.

Python floats are modelled as rationals (`ℚ`); the motor bus is modelled as
explicit register state on three disks plus an action trace; `time.sleep`
raises on a negative argument exactly as CPython does.
-/

namespace Reachy

/-! ## DynamixelMotor frame transform (motor.py lines 49-53) -/

/-- Embeds `DynamixelMotor._as_local_pos`:
`(pos if self.is_direct() else -pos) - self.offset`. -/
def as_local_pos (direct : Bool) (offset pos : ℚ) : ℚ :=
  (if direct then pos else -pos) - offset

/-- Embeds `DynamixelMotor._to_motor_pos`:
`(pos + self.offset) * (1 if self.is_direct() else -1)`. -/
def to_motor_pos (direct : Bool) (offset pos : ℚ) : ℚ :=
  (pos + offset) * (if direct then 1 else -1)

/-! ## DynamixelMotor.goto (motor.py lines 86-105) -/

/-- Observable interactions of `goto` with the target motor and the
trajectory player. `readStartingPoint` is the `getattr(self, starting_point)`
read (by default `present_position`, a bus read); `trajStart` is
`traj_player.start(self)`; `trajWait` is `traj_player.wait()`. -/
inductive MotorAct
  | readStartingPoint
  | trajStart
  | trajWait
deriving DecidableEq

/-- The keys of the `interpolations` dict in `goto`, in order:
`{'linear': Linear, 'minjerk': MinimumJerk}`. -/
def interpolation_keys : List String := ["linear", "minjerk"]

/-- Embeds `DynamixelMotor.goto` restricted to its observable control flow:
the membership test on `interpolations.keys()` happens before any motor
access, an unknown mode raises `ValueError` enumerating the valid keys
(returned here as the error payload), and a known mode reads the starting
point, starts the trajectory player, and waits on it when `wait` is set.
Returns the actions performed on the motor/trajectory player together with
the error, if any. -/
def goto (interpolation_mode : String) (wait : Bool) :
    List MotorAct × Option (List String) :=
  if interpolation_mode ∈ interpolation_keys then
    ([MotorAct.readStartingPoint, MotorAct.trajStart]
      ++ (if wait then [MotorAct.trajWait] else []), none)
  else
    ([], some interpolation_keys)

/-! ## OrbitaActuator construction (motor.py lines 108-130) -/

/-- The three disk-handle fields of `OrbitaActuator`, over an abstract
handle type. `__init__` unpacks
`self.disk_bottom, self.disk_middle, self.disk_top = luos_disks_motor`. -/
structure OrbitaHandles (α : Type) where
  disk_bottom : α
  disk_middle : α
  disk_top : α
deriving DecidableEq

/-- Embeds the handle unpacking of `OrbitaActuator.__init__`: the first
element of `luos_disks_motor` is assigned to `disk_bottom`, the second to
`disk_middle`, the third to `disk_top`. -/
def orbita_init (luos_disks_motor : α × α × α) : OrbitaHandles α :=
  { disk_bottom := luos_disks_motor.1
    disk_middle := luos_disks_motor.2.1
    disk_top := luos_disks_motor.2.2 }

/-- Embeds the `OrbitaActuator.disks` property:
`[self.disk_top, self.disk_middle, self.disk_bottom]`. -/
def OrbitaHandles.disks (o : OrbitaHandles α) : List α :=
  [o.disk_top, o.disk_middle, o.disk_bottom]

/-! ## OrbitaActuator register state -/

/-- Position of a disk in the `self.disks` iteration order
`[top, middle, bottom]`. -/
inductive DiskId
  | top
  | middle
  | bottom
deriving DecidableEq

/-- Index of a disk in the `self.disks` iteration order. -/
def DiskId.idx : DiskId → ℕ
  | .top => 0
  | .middle => 1
  | .bottom => 2

/-- The motor-bus registers of one disk that this core reads or writes:
`rot_position` and `rot_speed` are the sensor readings, the `target_*`
registers and the compliance flag are written by the actuator. -/
structure Disk where
  rot_position : ℚ
  rot_speed : ℚ
  target_rot_position : ℚ
  target_rot_speed : ℚ
  compliant : Bool
deriving DecidableEq

/-- The `OrbitaActuator` state: the three disks plus the two cached fields
`self._compliancy` and `self._moving_speed`. -/
structure Orbita where
  disk_top : Disk
  disk_middle : Disk
  disk_bottom : Disk
  compliancy : Bool
  moving_speed : ℚ
deriving DecidableEq

/-- The disk selected by a `DiskId`. -/
def Orbita.disk (s : Orbita) : DiskId → Disk
  | .top => s.disk_top
  | .middle => s.disk_middle
  | .bottom => s.disk_bottom

/-- An observable action of the actuator on the bus, the clock or the
kinematics model. `sleep` records a successful `time.sleep` call. -/
inductive Act
  | setToZero (i : DiskId)
  | sleep (secs : ℚ)
  | writeCompliant (i : DiskId) (v : Bool)
  | writeTargetSpeed (i : DiskId) (v : ℚ)
  | writeTargetPos (i : DiskId) (v : ℚ)
  | readRotSpeed (i : DiskId) (v : ℚ)
  | resetLastAngles
deriving DecidableEq

/-- The message of the `ValueError` raised by CPython's `time.sleep` on a
negative argument. -/
def sleep_error_msg : String := "sleep length must be non-negative"

/-- Effect of `disk.setToZero()`: the disk's present position becomes the
new zero reference. -/
def Disk.zeroed (d : Disk) : Disk := { d with rot_position := 0 }

/-- `setToZero` applied to all three disks (a `for d in self.disks` loop). -/
def Orbita.zero_all (s : Orbita) : Orbita :=
  { s with
      disk_top := s.disk_top.zeroed
      disk_middle := s.disk_middle.zeroed
      disk_bottom := s.disk_bottom.zeroed }

/-- Updates the three `rot_speed` sensor readings (used to reflect the last
values sampled by the homing loop). -/
def Orbita.with_rot_speeds (s : Orbita) (v : ℚ × ℚ × ℚ) : Orbita :=
  { s with
      disk_top := { s.disk_top with rot_speed := v.1 }
      disk_middle := { s.disk_middle with rot_speed := v.2.1 }
      disk_bottom := { s.disk_bottom with rot_speed := v.2.2 } }

/-! ## OrbitaActuator.compliant / moving_speed setters (lines 136-152) -/

/-- Embeds the `compliant` setter: `self._compliancy` is assigned first,
then each disk's compliance flag is written in `[top, middle, bottom]`
order. `fail i` injects a `HardwareIOError` on the write to disk `i`; the
exception propagates immediately, leaving earlier writes applied. Returns
the state when the setter returns or the exception escapes, the performed
writes, and the failing disk, if any. -/
def Orbita.set_compliant (s : Orbita) (v : Bool) (fail : DiskId → Bool) :
    Orbita × List Act × Option DiskId :=
  let s0 := { s with compliancy := v }
  if fail .top then (s0, [], some .top)
  else
    let s1 := { s0 with disk_top := { s0.disk_top with compliant := v } }
    if fail .middle then (s1, [Act.writeCompliant .top v], some .middle)
    else
      let s2 := { s1 with disk_middle := { s1.disk_middle with compliant := v } }
      if fail .bottom then
        (s2, [Act.writeCompliant .top v, Act.writeCompliant .middle v], some .bottom)
      else
        ({ s2 with disk_bottom := { s2.disk_bottom with compliant := v } },
         [Act.writeCompliant .top v, Act.writeCompliant .middle v,
          Act.writeCompliant .bottom v], none)

/-- Embeds the `moving_speed` setter: `self._moving_speed` is assigned
first, then each disk's `target_rot_speed` is written in
`[top, middle, bottom]` order, with the same failure model as
`set_compliant`. -/
def Orbita.set_moving_speed (s : Orbita) (v : ℚ) (fail : DiskId → Bool) :
    Orbita × List Act × Option DiskId :=
  let s0 := { s with moving_speed := v }
  if fail .top then (s0, [], some .top)
  else
    let s1 := { s0 with disk_top := { s0.disk_top with target_rot_speed := v } }
    if fail .middle then (s1, [Act.writeTargetSpeed .top v], some .middle)
    else
      let s2 := { s1 with disk_middle := { s1.disk_middle with target_rot_speed := v } }
      if fail .bottom then
        (s2, [Act.writeTargetSpeed .top v, Act.writeTargetSpeed .middle v], some .bottom)
      else
        ({ s2 with disk_bottom := { s2.disk_bottom with target_rot_speed := v } },
         [Act.writeTargetSpeed .top v, Act.writeTargetSpeed .middle v,
          Act.writeTargetSpeed .bottom v], none)

/-! ## OrbitaActuator.point_at and orient (lines 154-178) -/

/-- Embeds `point_at`: the kinematics model's vector solver output `thetas`
is an input (the model is an external collaborator); each angle is negated
(`q = -q`, the reversed-encoder correction) and written as the target
position of the corresponding disk in `[top, middle, bottom]` order. -/
def Orbita.point_at (s : Orbita) (thetas : ℚ × ℚ × ℚ) : Orbita × List Act :=
  let q_top := -thetas.1
  let q_mid := -thetas.2.1
  let q_bot := -thetas.2.2
  ({ s with
      disk_top := { s.disk_top with target_rot_position := q_top }
      disk_middle := { s.disk_middle with target_rot_position := q_mid }
      disk_bottom := { s.disk_bottom with target_rot_position := q_bot } },
   [Act.writeTargetPos .top q_top, Act.writeTargetPos .middle q_mid,
    Act.writeTargetPos .bottom q_bot])

/-- Embeds `orient`: the quaternion solver output `thetas` is an input; all
angles are negated; if `duration > 0` each disk's target speed is written as
`abs(q - d.rot_position) / duration` before any position target is written;
then the position targets are written; finally, if `wait` is set the code
calls `time.sleep(duration)` unconditionally, which raises `ValueError`
when `duration` is negative (the default duration is `-1`). -/
def Orbita.orient (s : Orbita) (thetas : ℚ × ℚ × ℚ) (duration : ℚ) (wait : Bool) :
    Orbita × List Act × Option String :=
  let q_top := -thetas.1
  let q_mid := -thetas.2.1
  let q_bot := -thetas.2.2
  let sp_top := |q_top - s.disk_top.rot_position| / duration
  let sp_mid := |q_mid - s.disk_middle.rot_position| / duration
  let sp_bot := |q_bot - s.disk_bottom.rot_position| / duration
  let s1 :=
    if 0 < duration then
      { s with
          disk_top := { s.disk_top with target_rot_speed := sp_top }
          disk_middle := { s.disk_middle with target_rot_speed := sp_mid }
          disk_bottom := { s.disk_bottom with target_rot_speed := sp_bot } }
    else s
  let tr1 : List Act :=
    if 0 < duration then
      [Act.writeTargetSpeed .top sp_top, Act.writeTargetSpeed .middle sp_mid,
       Act.writeTargetSpeed .bottom sp_bot]
    else []
  let s2 := { s1 with
      disk_top := { s1.disk_top with target_rot_position := q_top }
      disk_middle := { s1.disk_middle with target_rot_position := q_mid }
      disk_bottom := { s1.disk_bottom with target_rot_position := q_bot } }
  let tr2 := tr1 ++ [Act.writeTargetPos .top q_top, Act.writeTargetPos .middle q_mid,
    Act.writeTargetPos .bottom q_bot]
  if wait then
    if duration < 0 then (s2, tr2, some sleep_error_msg)
    else (s2, tr2 ++ [Act.sleep duration], none)
  else (s2, tr2, none)

/-! ## OrbitaActuator.homing (lines 197-236) -/

/-- Contents of the `recent_speed` deque (`deque([], 10)`) after the sample
of iteration `k` has been appended: the samples at indices
`max(0, k - 9), ..., k`, i.e. at most the last 10. -/
def window (samples : ℕ → ℚ × ℚ × ℚ) (k : ℕ) : List (ℚ × ℚ × ℚ) :=
  ((List.range (k + 1)).drop (k + 1 - 10)).map samples

/-- Arithmetic mean of a list of rationals (`np.mean` along one axis). -/
def mean (l : List ℚ) : ℚ := l.sum / l.length

/-- The exit condition of the stall-detection loop at iteration `k`:
`np.all(np.mean(recent_speed, axis=0) >= 0)`, i.e. the per-disk mean of the
windowed velocity samples is non-negative for all three disks. -/
def stall_exit (samples : ℕ → ℚ × ℚ × ℚ) (k : ℕ) : Prop :=
  0 ≤ mean ((window samples k).map (fun v => v.1)) ∧
  0 ≤ mean ((window samples k).map (fun v => v.2.1)) ∧
  0 ≤ mean ((window samples k).map (fun v => v.2.2))

instance stall_exit_decidable (samples : ℕ → ℚ × ℚ × ℚ) (k : ℕ) :
    Decidable (stall_exit samples k) := by
  unfold stall_exit
  infer_instance

/-- Embeds the `while True` stall-detection loop of `homing`, starting at
iteration `k`: each iteration reads the three disk velocities (the sample
of that iteration), appends them to the window, and exits returning the
iteration index when the per-disk windowed means are all non-negative,
otherwise sleeps 0.01 s and continues. The source loop is unbounded; `fuel`
bounds the modelled execution, and a `none` result means the loop was still
running after `fuel` iterations. -/
def homing_loop (samples : ℕ → ℚ × ℚ × ℚ) : ℕ → ℕ → List Act × Option ℕ
  | 0, _ => ([], none)
  | fuel + 1, k =>
    let v := samples k
    let reads := [Act.readRotSpeed .top v.1, Act.readRotSpeed .middle v.2.1,
      Act.readRotSpeed .bottom v.2.2]
    if stall_exit samples k then (reads, some k)
    else
      let rest := homing_loop samples fuel (k + 1)
      (reads ++ Act.sleep (1 / 100) :: rest.1, rest.2)

/-- Embeds `homing(speed=50, limit_pos=-270, target_pos=102)` end to end
over a bus whose reads and writes all succeed, with `samples` the disk
velocities observed by the stall loop and `identity_thetas` the kinematics
solver's output for the identity quaternion `Quaternion(1, 0, 0, 0)`. The
phases follow the source in order: zero reference, engage
(`self.compliant = False`), drive to limit, stall-detection loop, re-zero,
drive to offset with a timed wait of `target_pos / speed + 0.25`, final
zero, `model.reset_last_angles()`, and
`self.orient(Quaternion(1, 0, 0, 0), wait=True)` with the default
`duration = -1`. A `none` result means the stall loop was still running
after `fuel` iterations; otherwise the final state, the action trace and
the propagated `time.sleep` error, if any, are returned. -/
def Orbita.homing (s : Orbita) (samples : ℕ → ℚ × ℚ × ℚ) (fuel : ℕ)
    (identity_thetas : ℚ × ℚ × ℚ) (speed limit_pos target_pos : ℚ) :
    Option (Orbita × List Act × Option String) :=
  let s1 := s.zero_all
  let tr1 : List Act := [Act.setToZero .top, Act.setToZero .middle, Act.setToZero .bottom,
    Act.sleep (1 / 10)]
  let c := s1.set_compliant false (fun _ => false)
  let s2 := c.1
  let tr2 := c.2.1 ++ [Act.sleep (1 / 10)]
  let s3 := { s2 with
      disk_top := { s2.disk_top with
        target_rot_speed := speed, target_rot_position := limit_pos }
      disk_middle := { s2.disk_middle with
        target_rot_speed := speed, target_rot_position := limit_pos }
      disk_bottom := { s2.disk_bottom with
        target_rot_speed := speed, target_rot_position := limit_pos } }
  let tr3 : List Act := [Act.writeTargetSpeed .top speed, Act.writeTargetPos .top limit_pos,
    Act.writeTargetSpeed .middle speed, Act.writeTargetPos .middle limit_pos,
    Act.writeTargetSpeed .bottom speed, Act.writeTargetPos .bottom limit_pos,
    Act.sleep 1]
  match homing_loop samples fuel 0 with
  | (_, none) => none
  | (trL, some k) =>
    let s4 := ((s3.with_rot_speeds (samples k)).zero_all)
    let tr4 := trL ++ [Act.setToZero .top, Act.setToZero .middle, Act.setToZero .bottom,
      Act.sleep 1]
    let s5 := { s4 with
        disk_top := { s4.disk_top with target_rot_position := target_pos }
        disk_middle := { s4.disk_middle with target_rot_position := target_pos }
        disk_bottom := { s4.disk_bottom with target_rot_position := target_pos } }
    let tr5 : List Act := [Act.writeTargetPos .top target_pos,
      Act.writeTargetPos .middle target_pos, Act.writeTargetPos .bottom target_pos]
    let t_wait := target_pos / speed + 1 / 4
    if t_wait < 0 then
      some (s5, tr1 ++ tr2 ++ tr3 ++ tr4 ++ tr5, some sleep_error_msg)
    else
      let s6 := s5.zero_all
      let tr6 := tr5 ++ [Act.sleep t_wait, Act.setToZero .top, Act.setToZero .middle,
        Act.setToZero .bottom, Act.sleep (1 / 10), Act.resetLastAngles]
      let r := s6.orient identity_thetas (-1) true
      some (r.1, tr1 ++ tr2 ++ tr3 ++ tr4 ++ tr6 ++ r.2.1, r.2.2)

/-- Tests whether an action is a `resetLastAngles` call. -/
def is_reset : Act → Bool
  | Act.resetLastAngles => true
  | _ => false

/-- Number of `resetLastAngles` calls recorded in a trace. -/
def count_reset (tr : List Act) : ℕ :=
  (tr.filter is_reset).length

/-! ## Concrete example states -/

/-- A disk at rest at position 3 with target speed 40, compliant. -/
def disk_ex : Disk :=
  { rot_position := 3, rot_speed := 0, target_rot_position := 0,
    target_rot_speed := 40, compliant := true }

/-- An example actuator state: all disks as `disk_ex`, cached compliant and
cached moving speed 40. -/
def orb_ex : Orbita :=
  { disk_top := disk_ex, disk_middle := disk_ex, disk_bottom := disk_ex,
    compliancy := true, moving_speed := 40 }

/-- A disk at rest at the origin. -/
def disk0 : Disk :=
  { rot_position := 0, rot_speed := 0, target_rot_position := 0,
    target_rot_speed := 50, compliant := false }

/-- An example actuator state with all disks at the origin and cached
moving speed 50. -/
def orb0 : Orbita :=
  { disk_top := disk0, disk_middle := disk0, disk_bottom := disk0,
    compliancy := false, moving_speed := 50 }

/-- The spec's stall-detection scenario: every disk velocity is negative
for the first 15 samples and zero afterwards. -/
def samples_ex : ℕ → ℚ × ℚ × ℚ :=
  fun j => if j < 15 then (-1, -1, -1) else (0, 0, 0)

/-- Observable summary of a homing result: cached compliance flag, number
of kinematics resets in the trace, and the propagated error. -/
def homing_obs (r : Option (Orbita × List Act × Option String)) :
    Option (Bool × ℕ × Option String) :=
  r.map (fun x => (x.1.compliancy, count_reset x.2.1, x.2.2))

/-- A failure pattern that fails the hardware write on the middle disk
only. -/
def fail_mid : DiskId → Bool
  | DiskId.middle => true
  | _ => false

end Reachy

namespace Reachy

/-! ## Claim theorems -/

/-- Claim C3: the local-frame transform is `(direct ? r : -r) - offset`, its
inverse is `(v + offset) * (direct ? 1 : -1)`, the round trip
`toLocal (toRaw (toLocal r))` equals `toLocal r`, `toRaw (toLocal v) = v`
for every `v`, and with `direct = false`, `offset = 10`, raw `40` maps to
local `-50` and local `-50` maps back to raw `40`. -/
theorem C3_frame_transform_roundtrip :
    (∀ (direct : Bool) (offset r : ℚ),
      as_local_pos direct offset r = (if direct then r else -r) - offset) ∧
    (∀ (direct : Bool) (offset v : ℚ),
      to_motor_pos direct offset v = (v + offset) * (if direct then 1 else -1)) ∧
    (∀ (direct : Bool) (offset r : ℚ),
      as_local_pos direct offset (to_motor_pos direct offset
        (as_local_pos direct offset r)) = as_local_pos direct offset r) ∧
    (∀ (direct : Bool) (offset v : ℚ),
      to_motor_pos direct offset (as_local_pos direct offset v) = v) ∧
    as_local_pos false 10 40 = -50 ∧ to_motor_pos false 10 (-50) = 40 := by
  refine ⟨fun d o r => rfl, fun d o v => rfl, ?_, ?_, by norm_num [as_local_pos],
    by norm_num [to_motor_pos]⟩ <;>
    intro d o r <;> cases d <;> simp [as_local_pos, to_motor_pos]

/-- Claim C1, as stated, is false: `disks` does not return the construction
handles in passed order. Constructing from the handle tuple `(0, 1, 2)`,
`disks` returns `[2, 1, 0]`, not `[0, 1, 2]`: the first passed handle is
`disk_bottom`, not `disk_top`. -/
theorem C1_counterexample :
    ¬ (orbita_init ((0 : ℕ), 1, 2)).disks = [0, 1, 2] := by
  decide

/-- Claim C1 (amended): the constructor takes its three disk handles in
bottom/middle/top order, and `disks` returns `[top, middle, bottom]` where
`top` is the third handle passed at construction, `middle` the second and
`bottom` the first. -/
theorem C1_disks_order (α : Type) (a b c : α) :
    (orbita_init (a, b, c)).disk_bottom = a ∧
    (orbita_init (a, b, c)).disk_middle = b ∧
    (orbita_init (a, b, c)).disk_top = c ∧
    (orbita_init (a, b, c)).disks = [c, b, a] := by
  exact ⟨rfl, rfl, rfl, rfl⟩

/-- Claim C2, as stated, is false: the set of valid interpolation-mode
names is not `{"linear", "minimum-jerk"}` — the string `"minimum-jerk"` is
rejected by `goto` (the dict key is `"minjerk"`). -/
theorem C2_counterexample :
    ("minimum-jerk" ∈ (["linear", "minimum-jerk"] : List String)) ∧
    (goto "minimum-jerk" false).2 ≠ none := by
  constructor
  · simp
  · simp [goto, interpolation_keys]

/-- Claim C2 (amended): `goto` resolves `interpolation_mode` against exactly
the set `{"linear", "minjerk"}`; a name outside that set fails with an
invalid-argument error whose payload enumerates the valid set, with no read
or write performed on the target motor before failing; a name in the set
performs the motor accesses and does not error. -/
theorem C2_goto_invalid_mode (mode : String) (wait : Bool) :
    (mode ∉ interpolation_keys →
      goto mode wait = ([], some ["linear", "minjerk"])) ∧
    (mode ∈ interpolation_keys → (goto mode wait).2 = none) := by
  constructor
  · intro h
    rw [goto, if_neg h]
    rfl
  · intro h
    simp [goto, h]

/-- Witness for C2: `goto` with mode `"bogus"` fails, enumerates
`["linear", "minjerk"]`, and performs no motor action; mode `"linear"`
succeeds. -/
theorem C2_goto_invalid_mode_witness :
    goto "bogus" false = ([], some ["linear", "minjerk"]) ∧
    (goto "linear" false).2 = none := by
  refine ⟨(C2_goto_invalid_mode "bogus" false).1 (by decide),
    (C2_goto_invalid_mode "linear" false).2 (by decide)⟩

/-! ## Helper lemmas about the stall-detection loop -/

theorem homing_loop_sound (samples : ℕ → ℚ × ℚ × ℚ) :
    ∀ fuel k0 k, (homing_loop samples fuel k0).2 = some k →
      k0 ≤ k ∧ stall_exit samples k ∧
        ∀ j, k0 ≤ j → j < k → ¬ stall_exit samples j := by
  intro fuel
  induction fuel with
  | zero =>
    intro k0 k h
    simp [homing_loop] at h
  | succ n ih =>
    intro k0 k h
    by_cases hs : stall_exit samples k0
    · simp [homing_loop, hs] at h
      subst h
      exact ⟨le_refl _, hs, fun j h1 h2 => absurd (lt_of_le_of_lt h1 h2) (lt_irrefl _)⟩
    · simp [homing_loop, hs] at h
      obtain ⟨h1, h2, h3⟩ := ih (k0 + 1) k h
      refine ⟨by omega, h2, fun j hj hjk => ?_⟩
      by_cases hj0 : j = k0
      · subst hj0; exact hs
      · exact h3 j (by omega) hjk

theorem homing_loop_complete (samples : ℕ → ℚ × ℚ × ℚ) :
    ∀ fuel k0 k, k0 ≤ k → k < k0 + fuel → stall_exit samples k →
      (∀ j, k0 ≤ j → j < k → ¬ stall_exit samples j) →
      (homing_loop samples fuel k0).2 = some k := by
  intro fuel
  induction fuel with
  | zero =>
    intro k0 k h1 h2
    omega
  | succ n ih =>
    intro k0 k h1 h2 hk hmin
    by_cases he : k0 = k
    · subst he
      simp [homing_loop, hk]
    · have hne : ¬ stall_exit samples k0 := hmin k0 (le_refl _) (by omega)
      simp [homing_loop, hne]
      exact ih (k0 + 1) k (by omega) (by omega) hk (fun j hj hjk => hmin j (by omega) hjk)

theorem homing_loop_never (samples : ℕ → ℚ × ℚ × ℚ)
    (h : ∀ j, ¬ stall_exit samples j) :
    ∀ fuel k0, (homing_loop samples fuel k0).2 = none := by
  intro fuel
  induction fuel with
  | zero =>
    intro k0
    simp [homing_loop]
  | succ n ih =>
    intro k0
    simp [homing_loop, h k0]
    exact ih (k0 + 1)

theorem count_reset_append (l1 l2 : List Act) :
    count_reset (l1 ++ l2) = count_reset l1 + count_reset l2 := by
  simp [count_reset, List.filter_append]

theorem count_reset_homing_loop (samples : ℕ → ℚ × ℚ × ℚ) :
    ∀ fuel k0, count_reset (homing_loop samples fuel k0).1 = 0 := by
  intro fuel
  induction fuel with
  | zero =>
    intro k0
    simp [homing_loop, count_reset]
  | succ n ih =>
    intro k0
    by_cases hs : stall_exit samples k0
    · simp [homing_loop, hs, count_reset, is_reset]
    · simp [homing_loop, hs, count_reset, is_reset, List.filter_append]
      have := ih (k0 + 1)
      simpa [count_reset] using this

theorem window_eq_map (samples : ℕ → ℚ × ℚ × ℚ) (k : ℕ) :
    window samples k =
      (List.range (min (k + 1) 10)).map (fun j => samples (k + 1 - 10 + j)) := by
  rw [window]
  generalize hd : k + 1 - 10 = d
  generalize hm : min (k + 1) 10 = m
  rw [show k + 1 = d + m by omega, List.range_add,
    List.drop_left' (by rw [List.length_range]), List.map_map]
  rfl

theorem mem_window (samples : ℕ → ℚ × ℚ × ℚ) (k m : ℕ)
    (h1 : k + 1 - 10 ≤ m) (h2 : m ≤ k) :
    samples m ∈ window samples k := by
  rw [window_eq_map]
  refine List.mem_map.2 ⟨m - (k + 1 - 10), List.mem_range.2 (by omega), ?_⟩
  congr 1
  omega

theorem list_sum_nonpos (l : List ℚ) (h : ∀ x ∈ l, x ≤ 0) : l.sum ≤ 0 := by
  induction l with
  | nil => simp
  | cons a t ih =>
    simp only [List.sum_cons]
    have ha := h a (List.mem_cons_self a t)
    have ht := ih (fun x hx => h x (List.mem_cons_of_mem a hx))
    linarith

theorem mean_neg (l : List ℚ) (h1 : ∀ x ∈ l, x ≤ 0) (x0 : ℚ)
    (h2 : x0 ∈ l) (h3 : x0 < 0) : mean l < 0 := by
  have hsum : l.sum < 0 := by
    obtain ⟨s, t, rfl⟩ := List.append_of_mem h2
    rw [List.sum_append, List.sum_cons]
    have hs := list_sum_nonpos s (fun x hx => h1 x (by simp [hx]))
    have ht := list_sum_nonpos t (fun x hx => h1 x (by simp [hx]))
    linarith
  have hlen : 0 < (l.length : ℚ) := by
    have hne : l ≠ [] := by rintro rfl; simp at h2
    exact_mod_cast List.length_pos.2 hne
  exact div_neg_of_neg_of_pos hsum hlen

theorem stall_exit_ex_24 : stall_exit samples_ex 24 := by
  have hw : window samples_ex 24 = List.replicate 10 ((0 : ℚ), 0, 0) := by decide
  refine ⟨?_, ?_, ?_⟩ <;>
    rw [hw] <;>
    simp [mean, List.map_replicate, List.sum_replicate]

theorem stall_exit_ex_not (j : ℕ) (hj : j < 24) : ¬ stall_exit samples_ex j := by
  intro hst
  have hmem : samples_ex (j + 1 - 10) ∈ window samples_ex j :=
    mem_window _ j (j + 1 - 10) (le_refl _) (by omega)
  have hval : samples_ex (j + 1 - 10) = (-1, -1, -1) := by
    simp only [samples_ex]
    rw [if_pos (by omega)]
  have hm1 : ((-1 : ℚ)) ∈ (window samples_ex j).map (fun v => v.1) := by
    refine List.mem_map.2 ⟨_, hmem, ?_⟩
    rw [hval]
  have hle : ∀ x ∈ (window samples_ex j).map (fun v => v.1), x ≤ 0 := by
    intro x hx
    obtain ⟨v, hv, rfl⟩ := List.mem_map.1 hx
    rw [window_eq_map] at hv
    obtain ⟨i, _, rfl⟩ := List.mem_map.1 hv
    simp only [samples_ex]
    split <;> norm_num
  have hneg := mean_neg _ hle (-1) hm1 (by norm_num)
  have := hst.1
  linarith

/-- Claim C5: the stall-detection loop keeps a sliding window of at most
the last 10 per-disk velocity samples (exactly the last 10 once 10 samples
exist), exits at the first iteration at which the windowed per-disk mean
velocity is non-negative for all three disks simultaneously — so a
negative sample that has left the window cannot block exit — and has no
timeout of its own: it only ever terminates through that condition, and
runs forever when the condition never holds. -/
theorem C5_stall_detection (samples : ℕ → ℚ × ℚ × ℚ) (fuel k : ℕ) :
    ((window samples k).length = min (k + 1) 10) ∧
    (9 ≤ k → window samples k = (List.range 10).map (fun j => samples (k - 9 + j))) ∧
    ((homing_loop samples fuel 0).2 = some k →
      stall_exit samples k ∧ ∀ j, j < k → ¬ stall_exit samples j) ∧
    (stall_exit samples k → (∀ j, j < k → ¬ stall_exit samples j) → k < fuel →
      (homing_loop samples fuel 0).2 = some k) ∧
    ((∀ j, ¬ stall_exit samples j) → (homing_loop samples fuel 0).2 = none) := by
  refine ⟨?_, ?_, ?_, ?_, ?_⟩
  · rw [window_eq_map]
    simp
  · intro hk
    rw [window_eq_map]
    rw [show min (k + 1) 10 = 10 by omega, show k + 1 - 10 = k - 9 by omega]
  · intro h
    obtain ⟨h1, h2, h3⟩ := homing_loop_sound samples fuel 0 k h
    exact ⟨h2, fun j hj => h3 j (Nat.zero_le _) hj⟩
  · intro h1 h2 h3
    exact homing_loop_complete samples fuel 0 k (Nat.zero_le _) (by omega) h1
      (fun j _ hj => h2 j hj)
  · intro h
    exact homing_loop_never samples h fuel 0

/-- Witness for C5, the spec's scenario: velocities negative for the first
15 samples then zero. The loop exits exactly at iteration 24, the first at
which the 10-sample window `[15..24]` no longer contains a negative sample;
at iteration 23 the single stale negative sample 14 is still in the window
and blocks exit. -/
theorem C5_stall_detection_witness :
    (homing_loop samples_ex 30 0).2 = some 24 ∧ ¬ stall_exit samples_ex 23 := by
  constructor
  · exact (C5_stall_detection samples_ex 30 24).2.2.2.1 stall_exit_ex_24
      (fun j hj => stall_exit_ex_not j hj) (by omega)
  · exact stall_exit_ex_not 23 (by omega)

/-- Claim C8: `point_at` writes exactly the negation of the solver's three
outputs as the target positions of `[top, middle, bottom]` respectively,
and performs exactly those three writes; with a stub solver returning
`[1, 2, 3]` the disks receive `[-1, -2, -3]`. -/
theorem C8_point_at_negates (s : Orbita) (thetas : ℚ × ℚ × ℚ) :
    ((s.point_at thetas).1.disk_top.target_rot_position = -thetas.1 ∧
     (s.point_at thetas).1.disk_middle.target_rot_position = -thetas.2.1 ∧
     (s.point_at thetas).1.disk_bottom.target_rot_position = -thetas.2.2) ∧
    (s.point_at thetas).2 =
      [Act.writeTargetPos .top (-thetas.1), Act.writeTargetPos .middle (-thetas.2.1),
       Act.writeTargetPos .bottom (-thetas.2.2)] ∧
    ((s.point_at (1, 2, 3)).1.disk_top.target_rot_position = -1 ∧
     (s.point_at (1, 2, 3)).1.disk_middle.target_rot_position = -2 ∧
     (s.point_at (1, 2, 3)).1.disk_bottom.target_rot_position = -3) :=
  ⟨⟨rfl, rfl, rfl⟩, rfl, ⟨rfl, rfl, rfl⟩⟩

/-- Claim C7: for every `orient` call with positive duration, each disk's
target speed is set to `|targetAngle - currentAngle| / duration` — a
non-negative value, by the absolute value — and all three speed writes
happen before any position-target write. -/
theorem C7_orient_speed (s : Orbita) (thetas : ℚ × ℚ × ℚ) (duration : ℚ)
    (wait : Bool) (h : 0 < duration) :
    (s.orient thetas duration wait).1.disk_top.target_rot_speed =
        |(-thetas.1) - s.disk_top.rot_position| / duration ∧
    (s.orient thetas duration wait).1.disk_middle.target_rot_speed =
        |(-thetas.2.1) - s.disk_middle.rot_position| / duration ∧
    (s.orient thetas duration wait).1.disk_bottom.target_rot_speed =
        |(-thetas.2.2) - s.disk_bottom.rot_position| / duration ∧
    0 ≤ |(-thetas.1) - s.disk_top.rot_position| / duration ∧
    (s.orient thetas duration wait).2.1 =
      [Act.writeTargetSpeed .top (|(-thetas.1) - s.disk_top.rot_position| / duration),
       Act.writeTargetSpeed .middle (|(-thetas.2.1) - s.disk_middle.rot_position| / duration),
       Act.writeTargetSpeed .bottom (|(-thetas.2.2) - s.disk_bottom.rot_position| / duration),
       Act.writeTargetPos .top (-thetas.1), Act.writeTargetPos .middle (-thetas.2.1),
       Act.writeTargetPos .bottom (-thetas.2.2)]
      ++ (if wait then [Act.sleep duration] else []) := by
  have hns : ¬ duration < 0 := by linarith
  have hpos : 0 ≤ |(-thetas.1) - s.disk_top.rot_position| / duration :=
    div_nonneg (abs_nonneg _) (le_of_lt h)
  cases wait <;> simp [Orbita.orient, h, hns, hpos]

/-- Witness for C7, the spec's example: a disk currently at angle 0
targeting angle 1 (solver output -1 before the sign correction) with
duration 2 receives target speed 1/2. -/
theorem C7_orient_speed_witness :
    (0 : ℚ) < 2 ∧
    (orb0.orient (-1, 0, 0) 2 false).1.disk_top.target_rot_speed = 1 / 2 := by
  refine ⟨by norm_num, ?_⟩
  rw [(C7_orient_speed orb0 (-1, 0, 0) 2 false (by norm_num)).1]
  norm_num [orb0, disk0]

/-- Claim C6, against the code: `orient` calls `time.sleep(duration)`
whenever `wait` is set, with no `duration > 0` guard. With positive
duration the blocking sleep of exactly `duration` is recorded and no error
occurs, and without `wait` nothing is slept — but with `wait` and a
negative duration (including the default `duration = -1`, the case homing
exercises) the call raises the sleep error instead of completing without
error, contradicting the claim. -/
theorem C6_orient_wait_sleep (s : Orbita) (thetas : ℚ × ℚ × ℚ) (duration : ℚ) :
    (0 < duration →
      (s.orient thetas duration true).2.2 = none ∧
      (s.orient thetas duration true).2.1 =
        (s.orient thetas duration false).2.1 ++ [Act.sleep duration]) ∧
    ((s.orient thetas duration false).2.2 = none) ∧
    (duration < 0 →
      (s.orient thetas duration true).2.2 = some sleep_error_msg ∧
      (s.orient thetas duration true).2.1 = (s.orient thetas duration false).2.1) := by
  refine ⟨fun h => ?_, ?_, fun h => ?_⟩
  · have hns : ¬ duration < 0 := by linarith
    simp [Orbita.orient, h, hns]
  · simp [Orbita.orient]
  · have hnp : ¬ 0 < duration := by linarith
    simp [Orbita.orient, h, hnp]

/-- Witness for C6: with duration 2 the waiting call completes without
error; with the default duration -1 the waiting call fails with the
negative-sleep error. -/
theorem C6_orient_wait_sleep_witness :
    (0 : ℚ) < 2 ∧ (orb0.orient (0, 0, 0) 2 true).2.2 = none ∧
    (-1 : ℚ) < 0 ∧
    (orb0.orient (0, 0, 0) (-1) true).2.2 = some sleep_error_msg := by
  refine ⟨by norm_num, ((C6_orient_wait_sleep orb0 (0, 0, 0) 2).1 (by norm_num)).1,
    by norm_num, ((C6_orient_wait_sleep orb0 (0, 0, 0) (-1)).2.2 (by norm_num)).1⟩

/-- Claim C9: both fan-out setters assign the cached field before any disk
write; if the hardware write fails first on disk `k` (in the
`[top, middle, bottom]` order), the cache already holds the new value while
disk `k` and the later disks still hold their old register state (the
earlier disks already hold the new value), so the cache can disagree with
the per-disk hardware state after a partial failure. -/
theorem C9_setter_cache_first (s : Orbita) (v : Bool) (sp : ℚ)
    (fail : DiskId → Bool) (k : DiskId)
    (hk : fail k = true) (hmin : ∀ j : DiskId, j.idx < k.idx → fail j = false) :
    ((s.set_compliant v fail).2.2 = some k ∧
     (s.set_compliant v fail).1.compliancy = v ∧
     (∀ j : DiskId, j.idx < k.idx →
        ((s.set_compliant v fail).1.disk j).compliant = v) ∧
     (∀ j : DiskId, k.idx ≤ j.idx →
        (s.set_compliant v fail).1.disk j = s.disk j)) ∧
    ((s.set_moving_speed sp fail).2.2 = some k ∧
     (s.set_moving_speed sp fail).1.moving_speed = sp ∧
     (∀ j : DiskId, j.idx < k.idx →
        ((s.set_moving_speed sp fail).1.disk j).target_rot_speed = sp) ∧
     (∀ j : DiskId, k.idx ≤ j.idx →
        (s.set_moving_speed sp fail).1.disk j = s.disk j)) := by
  cases k with
  | top =>
    refine ⟨⟨?_, ?_, ?_, ?_⟩, ⟨?_, ?_, ?_, ?_⟩⟩ <;>
      simp [Orbita.set_compliant, Orbita.set_moving_speed, hk] <;>
      intro j hj <;> cases j <;> simp [DiskId.idx, Orbita.disk] at hj ⊢
  | middle =>
    have h0 : fail DiskId.top = false := hmin DiskId.top (by simp [DiskId.idx])
    refine ⟨⟨?_, ?_, ?_, ?_⟩, ⟨?_, ?_, ?_, ?_⟩⟩ <;>
      simp [Orbita.set_compliant, Orbita.set_moving_speed, hk, h0] <;>
      intro j hj <;> cases j <;> simp [DiskId.idx, Orbita.disk] at hj ⊢
  | bottom =>
    have h0 : fail DiskId.top = false := hmin DiskId.top (by simp [DiskId.idx])
    have h1 : fail DiskId.middle = false := hmin DiskId.middle (by simp [DiskId.idx])
    refine ⟨⟨?_, ?_, ?_, ?_⟩, ⟨?_, ?_, ?_, ?_⟩⟩ <;>
      simp [Orbita.set_compliant, Orbita.set_moving_speed, hk, h0, h1] <;>
      intro j hj <;> cases j <;> simp [DiskId.idx, Orbita.disk] at hj ⊢

/-- Witness for C9: on `orb_ex` (all disks compliant, cache compliant)
with a bus that fails the write on the middle disk, setting
`compliant = false` leaves the cache at the new value `false`, the top disk
at `false`, but the middle disk still compliant — cache and middle disk
disagree. -/
theorem C9_setter_cache_first_witness :
    fail_mid DiskId.middle = true ∧
    (orb_ex.set_compliant false fail_mid).2.2 = some DiskId.middle ∧
    (orb_ex.set_compliant false fail_mid).1.compliancy = false ∧
    ((orb_ex.set_compliant false fail_mid).1.disk DiskId.middle).compliant = true := by
  have h := C9_setter_cache_first orb_ex false 10 fail_mid DiskId.middle rfl
    (by intro j hj; cases j <;> simp [DiskId.idx, fail_mid] at hj ⊢)
  refine ⟨rfl, h.1.1, h.1.2.1, ?_⟩
  rw [h.1.2.2.2 DiskId.middle (by simp [DiskId.idx])]
  rfl

theorem suffix_append_left (l t s : List Act) (h : l <:+ t) : l <:+ s ++ t :=
  h.trans (List.suffix_append s t)

theorem homing_result (s : Orbita) (samples : ℕ → ℚ × ℚ × ℚ) (fuel : ℕ)
    (idth : ℚ × ℚ × ℚ) (sp lp tp : ℚ) (r : Orbita × List Act × Option String)
    (h : s.homing samples fuel idth sp lp tp = some r) :
    r.1.moving_speed = s.moving_speed ∧ r.1.compliancy = false ∧
    r.1.disk_top.target_rot_speed = sp ∧
    (¬ tp / sp + 1 / 4 < 0 →
      r.2.2 = some sleep_error_msg ∧ count_reset r.2.1 = 1 ∧
      [Act.writeTargetPos .top (-idth.1), Act.writeTargetPos .middle (-idth.2.1),
       Act.writeTargetPos .bottom (-idth.2.2)] <:+ r.2.1) := by
  unfold Orbita.homing at h
  rcases hl : homing_loop samples fuel 0 with ⟨trL, rk⟩
  rw [hl] at h
  cases rk with
  | none => simp at h
  | some k =>
    have hcr : count_reset trL = 0 := by
      have := count_reset_homing_loop samples fuel 0
      rw [hl] at this
      exact this
    simp only [] at h
    split at h
    · rename_i hw
      injection h with h2
      subst h2
      refine ⟨?_, ?_, ?_, fun hnw => absurd hw hnw⟩
      · simp [Orbita.set_compliant, Orbita.zero_all, Orbita.with_rot_speeds]
      · simp [Orbita.set_compliant, Orbita.zero_all, Orbita.with_rot_speeds]
      · simp [Orbita.set_compliant, Orbita.zero_all, Orbita.with_rot_speeds, Disk.zeroed]
    · rename_i hw
      injection h with h2
      subst h2
      have hno : ¬ (0 : ℚ) < -1 := by norm_num
      have hyes : (-1 : ℚ) < 0 := by norm_num
      refine ⟨?_, ?_, ?_, fun _ => ⟨?_, ?_, ?_⟩⟩
      · simp [Orbita.orient, hno, hyes, Orbita.set_compliant, Orbita.zero_all,
          Orbita.with_rot_speeds]
      · simp [Orbita.orient, hno, hyes, Orbita.set_compliant, Orbita.zero_all,
          Orbita.with_rot_speeds]
      · simp [Orbita.orient, hno, hyes, Orbita.set_compliant, Orbita.zero_all,
          Orbita.with_rot_speeds, Disk.zeroed]
      · simp [Orbita.orient, hno, hyes]
      · have hcr2 : (trL.filter is_reset).length = 0 := hcr
        simp [Orbita.orient, hno, hyes, Orbita.set_compliant, count_reset, is_reset,
          List.filter_append, hcr2]
      · refine suffix_append_left _ _ _ ?_
        simp [Orbita.orient, hno, hyes]

/-- Claim C4, against the code: with the default homing parameters and a
bus whose reads and writes all succeed, whenever the homing sequence
terminates the cached `compliant` is false, `reset_last_angles` has been
invoked exactly once, and the final identity `orient` has been issued —
but its blocking wait never elapses: `orient` is called with the default
`duration = -1` and `wait = True`, so `time.sleep(-1)` raises and homing
always ends in an error instead of completing the wait. -/
theorem C4_homing_end (s : Orbita) (samples : ℕ → ℚ × ℚ × ℚ) (fuel : ℕ)
    (idth : ℚ × ℚ × ℚ) (r : Orbita × List Act × Option String)
    (h : s.homing samples fuel idth 50 (-270) 102 = some r) :
    r.1.compliancy = false ∧ count_reset r.2.1 = 1 ∧
    ([Act.writeTargetPos .top (-idth.1), Act.writeTargetPos .middle (-idth.2.1),
      Act.writeTargetPos .bottom (-idth.2.2)] <:+ r.2.1) ∧
    r.2.2 = some sleep_error_msg := by
  have hw : ¬ ((102 : ℚ) / 50 + 1 / 4 < 0) := by norm_num
  obtain ⟨h1, h2, h3, h4⟩ := homing_result s samples fuel idth 50 (-270) 102 r h
  obtain ⟨e1, e2, e3⟩ := h4 hw
  exact ⟨h2, e2, e3, e1⟩

/-- Witness for C4: a concrete homing run (all velocities zero, so the
stall loop exits at once) reaches cached compliant false and exactly one
kinematics reset, and terminates with the negative-sleep error. -/
theorem C4_homing_end_witness :
    homing_obs (orb_ex.homing (fun _ => (0, 0, 0)) 1 (0, 0, 0) 50 (-270) 102) =
      some (false, 1, some sleep_error_msg) := by
  have hs : stall_exit (fun _ => ((0 : ℚ), 0, 0)) 0 := by
    refine ⟨?_, ?_, ?_⟩ <;> norm_num [window, mean]
  cases h : orb_ex.homing (fun _ => (0, 0, 0)) 1 (0, 0, 0) 50 (-270) 102 with
  | none =>
    exfalso
    unfold Orbita.homing at h
    rcases hl : homing_loop (fun _ => ((0 : ℚ), 0, 0)) 1 0 with ⟨trL, rk⟩
    rw [hl] at h
    have h2 : rk = some 0 := by
      have h3 := homing_loop_complete (fun _ => ((0 : ℚ), 0, 0)) 1 0 0 (le_refl _)
        (by omega) hs (fun j hj1 hj2 => absurd hj2 (by omega))
      rw [hl] at h3
      exact h3
    subst h2
    simp only [] at h
    split at h <;> simp at h
  | some r =>
    obtain ⟨h1, h2, h3, h4⟩ := C4_homing_end orb_ex (fun _ => (0, 0, 0)) 1 (0, 0, 0) r h
    simp [homing_obs, h1, h2, h4]

/-- Claim C10: `orient` with positive duration and `homing` write per-disk
target speeds directly on the disk handles, not through the `moving_speed`
setter, and never restore them: the cached `moving_speed` is unchanged by
both and can therefore disagree with the disks' actual target speeds until
the next `moving_speed` assignment, which re-synchronizes cache and all
three disks. -/
theorem C10_speed_cache_unchanged (s : Orbita) (thetas idth : ℚ × ℚ × ℚ)
    (duration sp lp tp v : ℚ) (wait : Bool) (samples : ℕ → ℚ × ℚ × ℚ) (fuel : ℕ)
    (r : Orbita × List Act × Option String) :
    ((s.orient thetas duration wait).1.moving_speed = s.moving_speed) ∧
    (0 < duration →
      (s.orient thetas duration wait).1.disk_top.target_rot_speed =
        |(-thetas.1) - s.disk_top.rot_position| / duration) ∧
    (s.homing samples fuel idth sp lp tp = some r →
      r.1.moving_speed = s.moving_speed ∧ r.1.disk_top.target_rot_speed = sp) ∧
    ((s.set_moving_speed v (fun _ => false)).1.moving_speed = v ∧
     (s.set_moving_speed v (fun _ => false)).1.disk_top.target_rot_speed = v ∧
     (s.set_moving_speed v (fun _ => false)).1.disk_middle.target_rot_speed = v ∧
     (s.set_moving_speed v (fun _ => false)).1.disk_bottom.target_rot_speed = v) := by
  refine ⟨?_, fun h => ?_, fun h => ?_, ?_⟩
  · unfold Orbita.orient
    by_cases h1 : 0 < duration <;> cases wait <;> by_cases h2 : duration < 0 <;>
      simp [h1, h2]
  · unfold Orbita.orient
    cases wait <;> by_cases h2 : duration < 0 <;> simp [h, h2]
  · obtain ⟨h1, _, h3, _⟩ := homing_result s samples fuel idth sp lp tp r h
    exact ⟨h1, h3⟩
  · simp [Orbita.set_moving_speed]

/-- Witness for C10: on `orb_ex` (cached moving speed 40), `orient` with
duration 2 leaves the cache at 40 while the top disk's target speed becomes
1, which differs from the cache. -/
theorem C10_speed_cache_unchanged_witness :
    (orb_ex.orient (-1, 0, 0) 2 false).1.moving_speed = 40 ∧
    (orb_ex.orient (-1, 0, 0) 2 false).1.disk_top.target_rot_speed = 1 ∧
    (1 : ℚ) ≠ 40 := by
  have h := C10_speed_cache_unchanged orb_ex (-1, 0, 0) (0, 0, 0) 2 0 0 0 0 false
    (fun _ => (0, 0, 0)) 0 (orb_ex, [], none)
  refine ⟨?_, ?_, by norm_num⟩
  · rw [h.1]
    rfl
  · rw [h.2.1 (by norm_num)]
    norm_num [orb_ex, disk_ex]

end Reachy
